import Mathlib

/-!
# Clipboard manager — shallow embedding

Embedding of the request handlers of `src/actions/index.ts` over the
`astro:db` schema declared in `db/tables.ts`.

Modelling conventions:
* `Date` values are natural-number timestamps (`Nat`).
* The database is three lists of rows; `insert … values` appends,
  `update … where` maps over the rows, `delete … where` filters.
* Each handler is a function from a request context, validated input,
  any freshly generated id / current time, and the database state to a
  pair of an `Except` result and the resulting database state.
* zod input validation (which runs before the handler body) is a
  boolean predicate checked first; a failing input yields
  `ActionError.validation` and leaves the state untouched.
* A zod `.optional()` field is an `Option`: `none` is "absent /
  undefined", `some v` is "present with value `v`".
-/

set_option autoImplicit false

namespace ClipboardManager

/-- The error kinds surfaced by the handlers: the `UNAUTHORIZED` and
`NOT_FOUND` codes of `ActionError`, plus the rejection produced by the
zod input schema before the handler body runs. -/
inductive ActionError where
  | unauthorized
  | notFound
  | validation
  deriving DecidableEq, Repr

/-- A row of the `ClipboardItems` table (`db/tables.ts`). -/
structure ClipboardItem where
  id : String
  userId : String
  contentType : Option String
  content : String
  normalizedPreview : Option String
  sourceApp : Option String
  sourceDevice : Option String
  isPinned : Bool
  isArchived : Bool
  createdAt : Nat
  lastCopiedAt : Option Nat
  deriving DecidableEq, Repr

/-- A row of the `ClipboardCollections` table (`db/tables.ts`). -/
structure ClipboardCollection where
  id : String
  userId : String
  name : String
  description : Option String
  icon : Option String
  isDefault : Bool
  createdAt : Nat
  updatedAt : Nat
  deriving DecidableEq, Repr

/-- A row of the `ClipboardCollectionItems` link table (`db/tables.ts`). -/
structure ClipboardCollectionItem where
  id : String
  collectionId : String
  itemId : String
  addedAt : Nat
  deriving DecidableEq, Repr

/-- The persistent store: the three tables. -/
structure DB where
  items : List ClipboardItem
  collections : List ClipboardCollection
  links : List ClipboardCollectionItem
  deriving DecidableEq, Repr

/-- The ambient request context: `context.locals.user`, modelled by the
authenticated user's id when present. -/
structure ActionAPIContext where
  user : Option String
  deriving DecidableEq, Repr

/-- Embedding of `requireUser` (`src/actions/index.ts`): fails `UNAUTHORIZED` when no
authenticated user is on the request context. -/
def requireUser (context : ActionAPIContext) : Except ActionError String :=
  match context.user with
  | some user => .ok user
  | none => .error .unauthorized

/-- Embedding of `getOwnedCollection`: select the collection whose id and userId both
match; `NOT_FOUND` when no row matches. -/
def getOwnedCollection (db : DB) (collectionId userId : String) :
    Except ActionError ClipboardCollection :=
  match (db.collections.filter
      (fun c => c.id == collectionId && c.userId == userId)).head? with
  | some collection => .ok collection
  | none => .error .notFound

/-- Embedding of `getOwnedItem`: select the item whose id and userId both match;
`NOT_FOUND` when no row matches. -/
def getOwnedItem (db : DB) (itemId userId : String) :
    Except ActionError ClipboardItem :=
  match (db.items.filter
      (fun it => it.id == itemId && it.userId == userId)).head? with
  | some item => .ok item
  | none => .error .notFound

/-- Input of `createClipboardItem` after zod parsing. -/
structure CreateItemInput where
  contentType : Option String
  content : String
  normalizedPreview : Option String
  sourceApp : Option String
  sourceDevice : Option String
  isPinned : Option Bool
  isArchived : Option Bool
  lastCopiedAt : Option Nat
  deriving DecidableEq, Repr

/-- zod schema of `createClipboardItem`: `content: z.string().min(1)`,
everything else optional. -/
def createItemInputValid (input : CreateItemInput) : Bool :=
  1 ≤ input.content.length

/-- Handler of `createClipboardItem`: insert a fresh row owned by the
caller, `isPinned`/`isArchived` defaulted to `false`, `createdAt`
stamped to the current time. -/
def createClipboardItem (context : ActionAPIContext) (input : CreateItemInput)
    (freshId : String) (now : Nat) (db : DB) :
    Except ActionError ClipboardItem × DB :=
  if createItemInputValid input then
    match requireUser context with
    | .error e => (.error e, db)
    | .ok userId =>
      let item : ClipboardItem :=
        { id := freshId
          userId := userId
          contentType := input.contentType
          content := input.content
          normalizedPreview := input.normalizedPreview
          sourceApp := input.sourceApp
          sourceDevice := input.sourceDevice
          isPinned := input.isPinned.getD false
          isArchived := input.isArchived.getD false
          createdAt := now
          lastCopiedAt := input.lastCopiedAt }
      (.ok item, { db with items := db.items ++ [item] })
  else (.error .validation, db)

/-- Input of `updateClipboardItem` after zod parsing. Note that on
update the schema is `content: z.string().optional()` — without the
`.min(1)` that the create schema has. -/
structure UpdateItemInput where
  id : String
  contentType : Option String
  content : Option String
  normalizedPreview : Option String
  sourceApp : Option String
  sourceDevice : Option String
  isPinned : Option Bool
  isArchived : Option Bool
  lastCopiedAt : Option Nat
  deriving DecidableEq, Repr

/-- zod schema of `updateClipboardItem`: `id` nonempty, plus the
`.refine` requiring at least one optional field to be present. -/
def updateItemInputValid (input : UpdateItemInput) : Bool :=
  1 ≤ input.id.length &&
  (input.contentType.isSome ||
   input.content.isSome ||
   input.normalizedPreview.isSome ||
   input.sourceApp.isSome ||
   input.sourceDevice.isSome ||
   input.isPinned.isSome ||
   input.isArchived.isSome ||
   input.lastCopiedAt.isSome)

/-- The TS pattern `...(x !== undefined ? { f: x } : {})` on an optional
column: a present value overwrites, an absent one keeps the old value. -/
def overrideOpt {α : Type} (new old : Option α) : Option α :=
  match new with
  | some v => some v
  | none => old

/-- The `.set({...})` object of `updateClipboardItem`: only fields
present in the input are applied; `id`, `userId` and `createdAt` are
never part of the set object. -/
def applyItemUpdate (input : UpdateItemInput) (it : ClipboardItem) :
    ClipboardItem :=
  { it with
    contentType := overrideOpt input.contentType it.contentType
    content := input.content.getD it.content
    normalizedPreview := overrideOpt input.normalizedPreview it.normalizedPreview
    sourceApp := overrideOpt input.sourceApp it.sourceApp
    sourceDevice := overrideOpt input.sourceDevice it.sourceDevice
    isPinned := input.isPinned.getD it.isPinned
    isArchived := input.isArchived.getD it.isArchived
    lastCopiedAt := overrideOpt input.lastCopiedAt it.lastCopiedAt }

/-- Handler of `updateClipboardItem`: validate, authenticate, check
ownership, then update the rows whose id matches and return the first
updated row. -/
def updateClipboardItem (context : ActionAPIContext) (input : UpdateItemInput)
    (db : DB) : Except ActionError (Option ClipboardItem) × DB :=
  if updateItemInputValid input then
    match requireUser context with
    | .error e => (.error e, db)
    | .ok userId =>
      match getOwnedItem db input.id userId with
      | .error e => (.error e, db)
      | .ok _ =>
        let items := db.items.map
          (fun it => if it.id == input.id then applyItemUpdate input it else it)
        (.ok (items.filter (fun it => it.id == input.id)).head?,
          { db with items := items })
  else (.error .validation, db)

/-- Input of `listClipboardItems` after zod parsing (both fields carry
`.default(false)`, so they are plain booleans here). -/
structure ListItemsInput where
  includeArchived : Bool
  pinnedOnly : Bool
  deriving DecidableEq, Repr

/-- The zod `.default(false)` application for `listClipboardItems`:
an absent boolean parses to `false`. -/
def parseListItemsInput (includeArchived pinnedOnly : Option Bool) :
    ListItemsInput :=
  { includeArchived := includeArchived.getD false
    pinnedOnly := pinnedOnly.getD false }

/-- The `and(...filters)` condition built by `listClipboardItems`: the
owner filter always, `isArchived = false` unless `includeArchived`,
`isPinned = true` when `pinnedOnly`. -/
def listItemsFilter (userId : String) (input : ListItemsInput)
    (it : ClipboardItem) : Bool :=
  it.userId == userId &&
  (if !input.includeArchived then it.isArchived == false else true) &&
  (if input.pinnedOnly then it.isPinned == true else true)

/-- Handler of `listClipboardItems`: always filter by owner; add the
not-archived filter unless `includeArchived`; add the pinned filter when
`pinnedOnly`; combine with `and(...)`. -/
def listClipboardItems (context : ActionAPIContext) (input : ListItemsInput)
    (db : DB) : Except ActionError (List ClipboardItem × Nat) × DB :=
  match requireUser context with
  | .error e => (.error e, db)
  | .ok userId =>
    let items := db.items.filter (listItemsFilter userId input)
    (.ok (items, items.length), db)

/-- Input of `createCollection` after zod parsing. -/
structure CreateCollectionInput where
  name : String
  description : Option String
  icon : Option String
  isDefault : Option Bool
  deriving DecidableEq, Repr

/-- zod schema of `createCollection`: `name: z.string().min(1)`. -/
def createCollectionInputValid (input : CreateCollectionInput) : Bool :=
  1 ≤ input.name.length

/-- Handler of `createCollection`: insert a fresh row owned by the
caller, `createdAt` and `updatedAt` both stamped to the same time. -/
def createCollection (context : ActionAPIContext) (input : CreateCollectionInput)
    (freshId : String) (now : Nat) (db : DB) :
    Except ActionError ClipboardCollection × DB :=
  if createCollectionInputValid input then
    match requireUser context with
    | .error e => (.error e, db)
    | .ok userId =>
      let collection : ClipboardCollection :=
        { id := freshId
          userId := userId
          name := input.name
          description := input.description
          icon := input.icon
          isDefault := input.isDefault.getD false
          createdAt := now
          updatedAt := now }
      (.ok collection,
        { db with collections := db.collections ++ [collection] })
  else (.error .validation, db)

/-- Input of `updateCollection` after zod parsing. -/
structure UpdateCollectionInput where
  id : String
  name : Option String
  description : Option String
  icon : Option String
  isDefault : Option Bool
  deriving DecidableEq, Repr

/-- zod schema of `updateCollection`: `id` nonempty, `name` nonempty when
present (`z.string().min(1).optional()`), and the `.refine` requiring at
least one optional field. -/
def updateCollectionInputValid (input : UpdateCollectionInput) : Bool :=
  1 ≤ input.id.length &&
  (match input.name with
   | some n => 1 ≤ n.length
   | none => true) &&
  (input.name.isSome ||
   input.description.isSome ||
   input.icon.isSome ||
   input.isDefault.isSome)

/-- The `.set({...})` object of `updateCollection`: supplied fields are
applied and `updatedAt` is refreshed unconditionally. -/
def applyCollectionUpdate (input : UpdateCollectionInput) (now : Nat)
    (c : ClipboardCollection) : ClipboardCollection :=
  { c with
    name := input.name.getD c.name
    description := overrideOpt input.description c.description
    icon := overrideOpt input.icon c.icon
    isDefault := input.isDefault.getD c.isDefault
    updatedAt := now }

/-- Handler of `updateCollection`: validate, authenticate, check
ownership, then update the rows whose id matches and return the first
updated row. -/
def updateCollection (context : ActionAPIContext) (input : UpdateCollectionInput)
    (now : Nat) (db : DB) :
    Except ActionError (Option ClipboardCollection) × DB :=
  if updateCollectionInputValid input then
    match requireUser context with
    | .error e => (.error e, db)
    | .ok userId =>
      match getOwnedCollection db input.id userId with
      | .error e => (.error e, db)
      | .ok _ =>
        let collections := db.collections.map
          (fun c => if c.id == input.id then applyCollectionUpdate input now c else c)
        (.ok (collections.filter (fun c => c.id == input.id)).head?,
          { db with collections := collections })
  else (.error .validation, db)

/-- Handler of `listCollections`: all collections owned by the caller,
with their count. -/
def listCollections (context : ActionAPIContext) (db : DB) :
    Except ActionError (List ClipboardCollection × Nat) × DB :=
  match requireUser context with
  | .error e => (.error e, db)
  | .ok userId =>
    let collections := db.collections.filter (fun c => c.userId == userId)
    (.ok (collections, collections.length), db)

/-- Input of `addItemToCollection` / `removeItemFromCollection`. -/
structure LinkInput where
  collectionId : String
  itemId : String
  deriving DecidableEq, Repr

/-- zod schema of the two link mutations: both ids nonempty. -/
def linkInputValid (input : LinkInput) : Bool :=
  1 ≤ input.collectionId.length && 1 ≤ input.itemId.length

/-- Handler of `addItemToCollection`: authenticate, check ownership of
the collection then of the item, insert a fresh link row. -/
def addItemToCollection (context : ActionAPIContext) (input : LinkInput)
    (freshId : String) (now : Nat) (db : DB) :
    Except ActionError ClipboardCollectionItem × DB :=
  if linkInputValid input then
    match requireUser context with
    | .error e => (.error e, db)
    | .ok userId =>
      match getOwnedCollection db input.collectionId userId with
      | .error e => (.error e, db)
      | .ok _ =>
        match getOwnedItem db input.itemId userId with
        | .error e => (.error e, db)
        | .ok _ =>
          let link : ClipboardCollectionItem :=
            { id := freshId
              collectionId := input.collectionId
              itemId := input.itemId
              addedAt := now }
          (.ok link, { db with links := db.links ++ [link] })
  else (.error .validation, db)

/-- Whether a link row matches the `(collectionId, itemId)` pair of a
link-mutation input. -/
def linkMatches (input : LinkInput) (l : ClipboardCollectionItem) : Bool :=
  l.collectionId == input.collectionId && l.itemId == input.itemId

/-- Handler of `removeItemFromCollection`: authenticate, check ownership
of both ids, delete every link row matching the pair, fail `NOT_FOUND`
when the delete affected zero rows. -/
def removeItemFromCollection (context : ActionAPIContext) (input : LinkInput)
    (db : DB) : Except ActionError Unit × DB :=
  if linkInputValid input then
    match requireUser context with
    | .error e => (.error e, db)
    | .ok userId =>
      match getOwnedCollection db input.collectionId userId with
      | .error e => (.error e, db)
      | .ok _ =>
        match getOwnedItem db input.itemId userId with
        | .error e => (.error e, db)
        | .ok _ =>
          let rowsAffected := db.links.countP (linkMatches input)
          let db2 : DB :=
            { db with links := db.links.filter (fun l => !linkMatches input l) }
          if rowsAffected == 0 then (.error .notFound, db2)
          else (.ok (), db2)
  else (.error .validation, db)

/-- Input of `listCollectionItems`. -/
structure ListCollectionItemsInput where
  collectionId : String
  deriving DecidableEq, Repr

/-- zod schema of `listCollectionItems`: collectionId nonempty. -/
def listCollectionItemsInputValid (input : ListCollectionItemsInput) : Bool :=
  1 ≤ input.collectionId.length

/-- Handler of `listCollectionItems`: authenticate, check ownership of
the collection, fetch its links, short-circuit to the empty result when
there are none, otherwise fetch the items whose id appears among the
links' itemIds (`inArray`). -/
def listCollectionItems (context : ActionAPIContext)
    (input : ListCollectionItemsInput) (db : DB) :
    Except ActionError (List ClipboardItem × Nat) × DB :=
  if listCollectionItemsInputValid input then
    match requireUser context with
    | .error e => (.error e, db)
    | .ok userId =>
      match getOwnedCollection db input.collectionId userId with
      | .error e => (.error e, db)
      | .ok _ =>
        let links := db.links.filter
          (fun l => l.collectionId == input.collectionId)
        let itemIds := links.map (fun l => l.itemId)
        if itemIds.length == 0 then (.ok ([], 0), db)
        else
          let items := db.items.filter (fun it => itemIds.contains it.id)
          (.ok (items, items.length), db)
  else (.error .validation, db)

/-! ## Ownership-guard lemmas -/

theorem getOwnedCollection_notFound (db : DB) (cid uid : String)
    (h : ∀ c ∈ db.collections, ¬(c.id = cid ∧ c.userId = uid)) :
    getOwnedCollection db cid uid = .error .notFound := by
  have hfil :
      db.collections.filter (fun c => c.id == cid && c.userId == uid) = [] := by
    rw [List.filter_eq_nil_iff]
    intro c hc
    simpa using h c hc
  unfold getOwnedCollection
  rw [hfil]
  rfl

theorem getOwnedItem_notFound (db : DB) (iid uid : String)
    (h : ∀ it ∈ db.items, ¬(it.id = iid ∧ it.userId = uid)) :
    getOwnedItem db iid uid = .error .notFound := by
  have hfil :
      db.items.filter (fun it => it.id == iid && it.userId == uid) = [] := by
    rw [List.filter_eq_nil_iff]
    intro it hit
    simpa using h it hit
  unfold getOwnedItem
  rw [hfil]
  rfl

theorem getOwnedCollection_ok (db : DB) (cid uid : String)
    (h : ∃ c ∈ db.collections, c.id = cid ∧ c.userId = uid) :
    ∃ c, getOwnedCollection db cid uid = .ok c := by
  obtain ⟨c, hmem, hid, hu⟩ := h
  have hc : c ∈ db.collections.filter (fun c => c.id == cid && c.userId == uid) :=
    List.mem_filter.mpr ⟨hmem, by simp [hid, hu]⟩
  unfold getOwnedCollection
  cases hfil : db.collections.filter (fun c => c.id == cid && c.userId == uid) with
  | nil => rw [hfil] at hc; exact absurd hc (List.not_mem_nil c)
  | cons c2 rest => exact ⟨c2, rfl⟩

theorem getOwnedItem_ok (db : DB) (iid uid : String)
    (h : ∃ it ∈ db.items, it.id = iid ∧ it.userId = uid) :
    ∃ it, getOwnedItem db iid uid = .ok it := by
  obtain ⟨it, hmem, hid, hu⟩ := h
  have hit : it ∈ db.items.filter (fun it => it.id == iid && it.userId == uid) :=
    List.mem_filter.mpr ⟨hmem, by simp [hid, hu]⟩
  unfold getOwnedItem
  cases hfil : db.items.filter (fun it => it.id == iid && it.userId == uid) with
  | nil => rw [hfil] at hit; exact absurd hit (List.not_mem_nil it)
  | cons it2 rest => exact ⟨it2, rfl⟩

/-! ## Claim C8: zero-field updates are rejected by validation -/

/-- C8: `updateClipboardItem` and `updateCollection` fail with a
validation error whenever the input supplies the id but none of the
optional mutable fields, for every context and every database state,
which is left untouched. -/
theorem updateZeroFields_rejected :
    (∀ (context : ActionAPIContext) (db : DB) (id : String),
        updateClipboardItem context
            { id := id, contentType := none, content := none,
              normalizedPreview := none, sourceApp := none,
              sourceDevice := none, isPinned := none, isArchived := none,
              lastCopiedAt := none } db =
          (.error .validation, db)) ∧
    (∀ (context : ActionAPIContext) (db : DB) (id : String) (now : Nat),
        updateCollection context
            { id := id, name := none, description := none, icon := none,
              isDefault := none } now db =
          (.error .validation, db)) := by
  constructor
  · intro context db id
    simp [updateClipboardItem, updateItemInputValid]
  · intro context db id now
    simp [updateCollection, updateCollectionInputValid]

/-! ## Claim C2: the non-empty-content invariant -/

/-- An item used in concrete scenarios: owned by `u1`, content `hello`. -/
def itemC2 : ClipboardItem :=
  { id := "i1", userId := "u1", contentType := none, content := "hello",
    normalizedPreview := none, sourceApp := none, sourceDevice := none,
    isPinned := false, isArchived := false, createdAt := 0,
    lastCopiedAt := none }

/-- A store holding only `itemC2`. -/
def dbC2 : DB := { items := [itemC2], collections := [], links := [] }

/-- C2: the update schema omits the min-length check that the create
schema has, so `updateClipboardItem` with `content := ""` succeeds and
leaves an item whose content is the empty string in the store. -/
theorem updateItem_allows_empty_content :
    updateClipboardItem { user := some "u1" }
        { id := "i1", contentType := none, content := some "",
          normalizedPreview := none, sourceApp := none, sourceDevice := none,
          isPinned := none, isArchived := none, lastCopiedAt := none } dbC2 =
      (.ok (some { itemC2 with content := "" }),
        { dbC2 with items := [{ itemC2 with content := "" }] }) := by
  rfl

/-! ## Update-shape lemmas -/

theorem updateClipboardItem_ok_items
    (context : ActionAPIContext) (input : UpdateItemInput) (db db2 : DB)
    (r : Option ClipboardItem)
    (h : updateClipboardItem context input db = (.ok r, db2)) :
    db2.items = db.items.map
      (fun it => if it.id == input.id then applyItemUpdate input it else it) := by
  by_cases hv : updateItemInputValid input = true
  · cases hu : requireUser context with
    | error e =>
      simp [updateClipboardItem, hv, hu] at h
    | ok uid =>
      cases hg : getOwnedItem db input.id uid with
      | error e =>
        simp [updateClipboardItem, hv, hu, hg] at h
      | ok it0 =>
        simp only [updateClipboardItem, hv, if_true, hu, hg, Prod.mk.injEq] at h
        rw [← h.2]
  · simp [updateClipboardItem, hv] at h

theorem updateCollection_ok_collections
    (context : ActionAPIContext) (input : UpdateCollectionInput) (now : Nat)
    (db db2 : DB) (r : Option ClipboardCollection)
    (h : updateCollection context input now db = (.ok r, db2)) :
    db2.collections = db.collections.map
      (fun c => if c.id == input.id then applyCollectionUpdate input now c else c) := by
  by_cases hv : updateCollectionInputValid input = true
  · cases hu : requireUser context with
    | error e =>
      simp [updateCollection, hv, hu] at h
    | ok uid =>
      cases hg : getOwnedCollection db input.id uid with
      | error e =>
        simp [updateCollection, hv, hu, hg] at h
      | ok c0 =>
        simp only [updateCollection, hv, if_true, hu, hg, Prod.mk.injEq] at h
        rw [← h.2]
  · simp [updateCollection, hv] at h

/-! ## Claim C4: an update only touches supplied fields -/

/-- C4: an item update changes only the fields explicitly present in
the input: every absent (`none`) field keeps its prior value exactly,
`id`, `userId` and `createdAt` are never modified, and the rows stored
after a successful `updateClipboardItem` are exactly the old rows with
`applyItemUpdate` applied to those whose id matches. -/
theorem updateItem_frame :
    (∀ (input : UpdateItemInput) (it : ClipboardItem),
        (applyItemUpdate input it).id = it.id ∧
        (applyItemUpdate input it).userId = it.userId ∧
        (applyItemUpdate input it).createdAt = it.createdAt ∧
        (input.contentType = none →
          (applyItemUpdate input it).contentType = it.contentType) ∧
        (input.content = none →
          (applyItemUpdate input it).content = it.content) ∧
        (input.normalizedPreview = none →
          (applyItemUpdate input it).normalizedPreview = it.normalizedPreview) ∧
        (input.sourceApp = none →
          (applyItemUpdate input it).sourceApp = it.sourceApp) ∧
        (input.sourceDevice = none →
          (applyItemUpdate input it).sourceDevice = it.sourceDevice) ∧
        (input.isPinned = none →
          (applyItemUpdate input it).isPinned = it.isPinned) ∧
        (input.isArchived = none →
          (applyItemUpdate input it).isArchived = it.isArchived) ∧
        (input.lastCopiedAt = none →
          (applyItemUpdate input it).lastCopiedAt = it.lastCopiedAt)) ∧
    (∀ (context : ActionAPIContext) (input : UpdateItemInput) (db : DB)
        (r : Option ClipboardItem) (db2 : DB),
        updateClipboardItem context input db = (.ok r, db2) →
        db2.items = db.items.map
          (fun it => if it.id == input.id then applyItemUpdate input it else it)) := by
  constructor
  · intro input it
    refine ⟨rfl, rfl, rfl, ?_, ?_, ?_, ?_, ?_, ?_, ?_, ?_⟩ <;>
      (intro h; simp [applyItemUpdate, overrideOpt, h])
  · intro context input db r db2 h
    exact updateClipboardItem_ok_items context input db db2 r h

/-- Input used by the C4 witness: update only `isPinned`. -/
def inC4 : UpdateItemInput :=
  { id := "i1", contentType := none, content := none,
    normalizedPreview := none, sourceApp := none, sourceDevice := none,
    isPinned := some true, isArchived := none, lastCopiedAt := none }

/-- Witness for C4: a pin-only update of `itemC2` keeps content,
contentType and createdAt, and the stored rows are the mapped rows. -/
theorem updateItem_frame_witness :
    ({ dbC2 with items := [{ itemC2 with isPinned := true }] } : DB).items =
      dbC2.items.map
        (fun it => if it.id == inC4.id then applyItemUpdate inC4 it else it) ∧
    (applyItemUpdate inC4 itemC2).content = itemC2.content ∧
    (applyItemUpdate inC4 itemC2).contentType = itemC2.contentType ∧
    (applyItemUpdate inC4 itemC2).createdAt = itemC2.createdAt :=
  ⟨updateItem_frame.2 { user := some "u1" } inC4 dbC2
      (some { itemC2 with isPinned := true })
      { dbC2 with items := [{ itemC2 with isPinned := true }] } rfl,
   (updateItem_frame.1 inC4 itemC2).2.2.2.2.1 rfl,
   (updateItem_frame.1 inC4 itemC2).2.2.2.1 rfl,
   (updateItem_frame.1 inC4 itemC2).2.2.1⟩

/-! ## Claim C3: collection updatedAt behaviour -/

theorem updateCollection_row_updatedAt
    (context : ActionAPIContext) (input : UpdateCollectionInput) (now : Nat)
    (db db2 : DB) (r : Option ClipboardCollection)
    (h : updateCollection context input now db = (.ok r, db2)) :
    ∀ c2 ∈ db2.collections, c2.id = input.id → c2.updatedAt = now := by
  intro c2 hmem hid
  rw [updateCollection_ok_collections context input now db db2 r h] at hmem
  obtain ⟨c1, hc1, hc2⟩ := List.mem_map.mp hmem
  by_cases hb : (c1.id == input.id) = true
  · rw [if_pos hb] at hc2
    rw [← hc2]
    rfl
  · rw [if_neg hb] at hc2
    subst hc2
    exact absurd (by simp [hid]) hb

theorem updateCollection_row_createdAt
    (context : ActionAPIContext) (input : UpdateCollectionInput) (now : Nat)
    (db db2 : DB) (r : Option ClipboardCollection)
    (h : updateCollection context input now db = (.ok r, db2))
    (hcreated : ∀ c0 ∈ db.collections, c0.id = input.id → c0.createdAt ≠ now) :
    ∀ c2 ∈ db2.collections, c2.id = input.id → c2.createdAt ≠ now := by
  intro c2 hmem hid
  rw [updateCollection_ok_collections context input now db db2 r h] at hmem
  obtain ⟨c1, hc1, hc2⟩ := List.mem_map.mp hmem
  by_cases hb : (c1.id == input.id) = true
  · rw [if_pos hb] at hc2
    rw [← hc2]
    exact hcreated c1 hc1 (by simpa using hb)
  · rw [if_neg hb] at hc2
    subst hc2
    exact absurd (by simp [hid]) hb

/-- C3 (amended): on every successful `updateCollection` the target
rows' `updatedAt` is set to the call's current time regardless of which
fields were supplied; two successive successful updates performed at
non-decreasing times produce non-decreasing `updatedAt` values; and
whenever the update time differs from the target's `createdAt`, the
resulting `updatedAt` differs from `createdAt`. -/
theorem updateCollection_updatedAt_refresh :
    (∀ (context : ActionAPIContext) (input : UpdateCollectionInput)
        (now : Nat) (db : DB) (r : Option ClipboardCollection) (db2 : DB),
        updateCollection context input now db = (.ok r, db2) →
        ∀ c2 ∈ db2.collections, c2.id = input.id → c2.updatedAt = now) ∧
    (∀ (context1 context2 : ActionAPIContext)
        (input1 input2 : UpdateCollectionInput) (now1 now2 : Nat) (db : DB)
        (r1 : Option ClipboardCollection) (db1 : DB)
        (r2 : Option ClipboardCollection) (db2 : DB),
        now1 ≤ now2 → input1.id = input2.id →
        updateCollection context1 input1 now1 db = (.ok r1, db1) →
        updateCollection context2 input2 now2 db1 = (.ok r2, db2) →
        ∀ c1 ∈ db1.collections, c1.id = input1.id →
        ∀ c2 ∈ db2.collections, c2.id = input2.id →
        c1.updatedAt ≤ c2.updatedAt) ∧
    (∀ (context : ActionAPIContext) (input : UpdateCollectionInput)
        (now : Nat) (db : DB) (r : Option ClipboardCollection) (db2 : DB),
        updateCollection context input now db = (.ok r, db2) →
        (∀ c0 ∈ db.collections, c0.id = input.id → c0.createdAt ≠ now) →
        ∀ c2 ∈ db2.collections, c2.id = input.id →
        c2.updatedAt ≠ c2.createdAt) := by
  refine ⟨?_, ?_, ?_⟩
  · intro context input now db r db2
    exact updateCollection_row_updatedAt context input now db db2 r
  · intro context1 context2 input1 input2 now1 now2 db r1 db1 r2 db2
      hle hid h1 h2 c1 hc1 hcid1 c2 hc2 hcid2
    have e1 := updateCollection_row_updatedAt context1 input1 now1 db db1 r1 h1
      c1 hc1 hcid1
    have e2 := updateCollection_row_updatedAt context2 input2 now2 db1 db2 r2 h2
      c2 hc2 hcid2
    rw [e1, e2]
    exact hle
  · intro context input now db r db2 h hcreated c2 hc2 hcid
    have e := updateCollection_row_updatedAt context input now db db2 r h
      c2 hc2 hcid
    have ne := updateCollection_row_createdAt context input now db db2 r h
      hcreated c2 hc2 hcid
    rw [e]
    exact fun hcontra => ne hcontra.symm

/-- A collection created at time 0. -/
def collC3 : ClipboardCollection :=
  { id := "c1", userId := "u1", name := "n", description := none, icon := none,
    isDefault := false, createdAt := 0, updatedAt := 0 }

/-- A store holding only `collC3`. -/
def dbC3 : DB := { items := [], collections := [collC3], links := [] }

/-- Input used by the C3 scenarios: rename the collection. -/
def inC3 : UpdateCollectionInput :=
  { id := "c1", name := some "n2", description := none, icon := none,
    isDefault := none }

/-- C3 counterexample: an update performed at the same timestamp as the
collection's creation succeeds and leaves `updatedAt` equal to
`createdAt`, so after one update the two do not always differ. -/
theorem updateCollection_same_instant :
    updateCollection { user := some "u1" } inC3 0 dbC3 =
      (.ok (some { collC3 with name := "n2", updatedAt := 0 }),
        { dbC3 with
            collections := [{ collC3 with name := "n2", updatedAt := 0 }] }) ∧
    ({ collC3 with name := "n2", updatedAt := 0 } : ClipboardCollection).updatedAt =
      ({ collC3 with name := "n2", updatedAt := 0 } : ClipboardCollection).createdAt :=
  ⟨rfl, rfl⟩

/-- Witness for C3 (amended) at a concrete update performed at time 5 on
a collection created at time 0. -/
theorem updateCollection_updatedAt_refresh_witness :
    ({ collC3 with name := "n2", updatedAt := 5 } : ClipboardCollection).updatedAt = 5 ∧
    ({ collC3 with name := "n2", updatedAt := 5 } : ClipboardCollection).updatedAt ≠
      ({ collC3 with name := "n2", updatedAt := 5 } : ClipboardCollection).createdAt :=
  ⟨updateCollection_updatedAt_refresh.1 { user := some "u1" } inC3 5 dbC3
      (some { collC3 with name := "n2", updatedAt := 5 })
      { dbC3 with collections := [{ collC3 with name := "n2", updatedAt := 5 }] }
      rfl { collC3 with name := "n2", updatedAt := 5 } (by simp) rfl,
   updateCollection_updatedAt_refresh.2.2 { user := some "u1" } inC3 5 dbC3
      (some { collC3 with name := "n2", updatedAt := 5 })
      { dbC3 with collections := [{ collC3 with name := "n2", updatedAt := 5 }] }
      rfl (by decide) { collC3 with name := "n2", updatedAt := 5 } (by simp) rfl⟩

/-! ## Claim C7: list filters are conjunctive and owner-scoped -/

/-- C7: `listClipboardItems` returns exactly the caller's items passing
all active filters conjunctively — archived items are excluded unless
`includeArchived`, and `pinnedOnly` additionally requires pinned — with
`total` equal to the number of items returned, and the state untouched. -/
theorem listItems_filter_conjunction
    (context : ActionAPIContext) (userId : String) (input : ListItemsInput)
    (db : DB) (hctx : context.user = some userId) :
    listClipboardItems context input db =
      (.ok (db.items.filter (listItemsFilter userId input),
            (db.items.filter (listItemsFilter userId input)).length), db) ∧
    ∀ it : ClipboardItem,
      it ∈ db.items.filter (listItemsFilter userId input) ↔
        it ∈ db.items ∧ it.userId = userId ∧
        (input.includeArchived = true ∨ it.isArchived = false) ∧
        (input.pinnedOnly = false ∨ it.isPinned = true) := by
  constructor
  · simp [listClipboardItems, requireUser, hctx]
  · intro it
    cases hA : input.includeArchived <;> cases hP : input.pinnedOnly <;>
      simp [List.mem_filter, listItemsFilter, hA, hP, and_assoc]

/-- The pinned and archived item of the C7 scenario. -/
def itemC7a : ClipboardItem :=
  { itemC2 with id := "a", userId := "u7", isPinned := true, isArchived := true }

/-- The pinned and active item of the C7 scenario. -/
def itemC7b : ClipboardItem :=
  { itemC2 with id := "b", userId := "u7", isPinned := true, isArchived := false }

/-- The unpinned and active item of the C7 scenario. -/
def itemC7c : ClipboardItem :=
  { itemC2 with id := "c", userId := "u7", isPinned := false, isArchived := false }

/-- The three-item store of the C7 scenario. -/
def dbC7 : DB := { items := [itemC7a, itemC7b, itemC7c], collections := [], links := [] }

/-- The C7 call input: `pinnedOnly := true`, `includeArchived` left to
its default. -/
def inp7 : ListItemsInput := parseListItemsInput none (some true)

/-- Witness for C7: on the {pinned+archived, pinned+active,
unpinned+active} store, a pinnedOnly query returns exactly the
pinned+active item. -/
theorem listItems_filter_conjunction_witness :
    listClipboardItems { user := some "u7" } inp7 dbC7 =
      (.ok (dbC7.items.filter (listItemsFilter "u7" inp7),
            (dbC7.items.filter (listItemsFilter "u7" inp7)).length), dbC7) ∧
    itemC7b ∈ dbC7.items.filter (listItemsFilter "u7" inp7) ∧
    dbC7.items.filter (listItemsFilter "u7" inp7) = [itemC7b] :=
  ⟨(listItems_filter_conjunction { user := some "u7" } "u7" inp7 dbC7 rfl).1,
   ((listItems_filter_conjunction { user := some "u7" } "u7" inp7 dbC7 rfl).2
       itemC7b).mpr (by decide),
   by decide⟩

/-! ## Claim C1: ownership isolation -/

/-- C1: every entity owned by user `a` is invisible to a different
authenticated caller `b`: the ownership-guard reads, the updates, and
each link operation referencing it (`addItemToCollection`,
`removeItemFromCollection`, `listCollectionItems`) fail with `notFound`
— never another error kind, never the data — and leave the store
untouched; this includes the mixed cases where the collection belongs to
the caller but the item belongs to `a`, or vice versa. -/
theorem ownership_isolation :
    (∀ (db : DB) (a b iid : String), a ≠ b →
        (∃ it ∈ db.items, it.id = iid ∧ it.userId = a) →
        (∀ it ∈ db.items, it.id = iid → it.userId = a) →
        getOwnedItem db iid b = .error .notFound) ∧
    (∀ (db : DB) (a b cid : String), a ≠ b →
        (∃ c ∈ db.collections, c.id = cid ∧ c.userId = a) →
        (∀ c ∈ db.collections, c.id = cid → c.userId = a) →
        getOwnedCollection db cid b = .error .notFound) ∧
    (∀ (db : DB) (a b : String) (context : ActionAPIContext)
        (input : UpdateItemInput), a ≠ b → context.user = some b →
        updateItemInputValid input = true →
        (∃ it ∈ db.items, it.id = input.id ∧ it.userId = a) →
        (∀ it ∈ db.items, it.id = input.id → it.userId = a) →
        updateClipboardItem context input db = (.error .notFound, db)) ∧
    (∀ (db : DB) (a b : String) (context : ActionAPIContext)
        (input : UpdateCollectionInput) (now : Nat), a ≠ b →
        context.user = some b →
        updateCollectionInputValid input = true →
        (∃ c ∈ db.collections, c.id = input.id ∧ c.userId = a) →
        (∀ c ∈ db.collections, c.id = input.id → c.userId = a) →
        updateCollection context input now db = (.error .notFound, db)) ∧
    (∀ (db : DB) (a b : String) (context : ActionAPIContext)
        (input : LinkInput) (freshId : String) (now : Nat), a ≠ b →
        context.user = some b →
        linkInputValid input = true →
        (∃ c ∈ db.collections, c.id = input.collectionId ∧ c.userId = a) →
        (∀ c ∈ db.collections, c.id = input.collectionId → c.userId = a) →
        addItemToCollection context input freshId now db =
          (.error .notFound, db)) ∧
    (∀ (db : DB) (a b : String) (context : ActionAPIContext)
        (input : LinkInput) (freshId : String) (now : Nat), a ≠ b →
        context.user = some b →
        linkInputValid input = true →
        (∃ c ∈ db.collections, c.id = input.collectionId ∧ c.userId = b) →
        (∃ it ∈ db.items, it.id = input.itemId ∧ it.userId = a) →
        (∀ it ∈ db.items, it.id = input.itemId → it.userId = a) →
        addItemToCollection context input freshId now db =
          (.error .notFound, db)) ∧
    (∀ (db : DB) (a b : String) (context : ActionAPIContext)
        (input : LinkInput), a ≠ b →
        context.user = some b →
        linkInputValid input = true →
        (∃ c ∈ db.collections, c.id = input.collectionId ∧ c.userId = a) →
        (∀ c ∈ db.collections, c.id = input.collectionId → c.userId = a) →
        removeItemFromCollection context input db = (.error .notFound, db)) ∧
    (∀ (db : DB) (a b : String) (context : ActionAPIContext)
        (input : LinkInput), a ≠ b →
        context.user = some b →
        linkInputValid input = true →
        (∃ c ∈ db.collections, c.id = input.collectionId ∧ c.userId = b) →
        (∃ it ∈ db.items, it.id = input.itemId ∧ it.userId = a) →
        (∀ it ∈ db.items, it.id = input.itemId → it.userId = a) →
        removeItemFromCollection context input db = (.error .notFound, db)) ∧
    (∀ (db : DB) (a b : String) (context : ActionAPIContext)
        (input : ListCollectionItemsInput), a ≠ b →
        context.user = some b →
        listCollectionItemsInputValid input = true →
        (∃ c ∈ db.collections, c.id = input.collectionId ∧ c.userId = a) →
        (∀ c ∈ db.collections, c.id = input.collectionId → c.userId = a) →
        listCollectionItems context input db = (.error .notFound, db)) := by
  refine ⟨?_, ?_, ?_, ?_, ?_, ?_, ?_, ?_, ?_⟩
  · intro db a b iid hab hex hall
    exact getOwnedItem_notFound db iid b
      (fun it hmem hpair => hab (((hall it hmem hpair.1).symm).trans hpair.2))
  · intro db a b cid hab hex hall
    exact getOwnedCollection_notFound db cid b
      (fun c hmem hpair => hab (((hall c hmem hpair.1).symm).trans hpair.2))
  · intro db a b context input hab hctx hv hex hall
    have hnf := getOwnedItem_notFound db input.id b
      (fun it hmem hpair => hab (((hall it hmem hpair.1).symm).trans hpair.2))
    simp [updateClipboardItem, hv, requireUser, hctx, hnf]
  · intro db a b context input now hab hctx hv hex hall
    have hnf := getOwnedCollection_notFound db input.id b
      (fun c hmem hpair => hab (((hall c hmem hpair.1).symm).trans hpair.2))
    simp [updateCollection, hv, requireUser, hctx, hnf]
  · intro db a b context input freshId now hab hctx hv hex hall
    have hnf := getOwnedCollection_notFound db input.collectionId b
      (fun c hmem hpair => hab (((hall c hmem hpair.1).symm).trans hpair.2))
    simp [addItemToCollection, hv, requireUser, hctx, hnf]
  · intro db a b context input freshId now hab hctx hv hcb hex hall
    obtain ⟨c0, hok⟩ := getOwnedCollection_ok db input.collectionId b hcb
    have hnf := getOwnedItem_notFound db input.itemId b
      (fun it hmem hpair => hab (((hall it hmem hpair.1).symm).trans hpair.2))
    simp [addItemToCollection, hv, requireUser, hctx, hok, hnf]
  · intro db a b context input hab hctx hv hex hall
    have hnf := getOwnedCollection_notFound db input.collectionId b
      (fun c hmem hpair => hab (((hall c hmem hpair.1).symm).trans hpair.2))
    simp [removeItemFromCollection, hv, requireUser, hctx, hnf]
  · intro db a b context input hab hctx hv hcb hex hall
    obtain ⟨c0, hok⟩ := getOwnedCollection_ok db input.collectionId b hcb
    have hnf := getOwnedItem_notFound db input.itemId b
      (fun it hmem hpair => hab (((hall it hmem hpair.1).symm).trans hpair.2))
    simp [removeItemFromCollection, hv, requireUser, hctx, hok, hnf]
  · intro db a b context input hab hctx hv hex hall
    have hnf := getOwnedCollection_notFound db input.collectionId b
      (fun c hmem hpair => hab (((hall c hmem hpair.1).symm).trans hpair.2))
    simp [listCollectionItems, hv, requireUser, hctx, hnf]

/-- The item of user `ua` in the C1 scenario. -/
def itemC1a : ClipboardItem := { itemC2 with id := "ia", userId := "ua" }

/-- The item of user `ub` in the C1 scenario. -/
def itemC1b : ClipboardItem := { itemC2 with id := "ib", userId := "ub" }

/-- The collection of user `ub` in the C1 scenario. -/
def collC1b : ClipboardCollection := { collC3 with id := "cb", userId := "ub" }

/-- The two-user store of the C1 scenario. -/
def dbC1 : DB :=
  { items := [itemC1a, itemC1b], collections := [collC1b], links := [] }

/-- Witness for C1: user `ub` updating `ua`'s item gets `notFound`, and
linking `ua`'s item into `ub`'s own collection also gets `notFound`,
even though both ids exist. -/
theorem ownership_isolation_witness :
    updateClipboardItem { user := some "ub" } { inC4 with id := "ia" } dbC1 =
      (.error .notFound, dbC1) ∧
    addItemToCollection { user := some "ub" }
        { collectionId := "cb", itemId := "ia" } "l1" 5 dbC1 =
      (.error .notFound, dbC1) :=
  ⟨ownership_isolation.2.2.1 dbC1 "ua" "ub" { user := some "ub" }
      { inC4 with id := "ia" } (by decide) rfl (by decide) (by decide) (by decide),
   ownership_isolation.2.2.2.2.2.1 dbC1 "ua" "ub" { user := some "ub" }
      { collectionId := "cb", itemId := "ia" } "l1" 5 (by decide) rfl (by decide)
      (by decide) (by decide) (by decide)⟩

/-! ## Link-operation evaluation lemmas -/

theorem addItemToCollection_ok
    (context : ActionAPIContext) (userId cid iid freshId : String) (now : Nat)
    (db : DB) (hctx : context.user = some userId)
    (hcv : 1 ≤ cid.length) (hiv : 1 ≤ iid.length)
    (hc : ∃ c ∈ db.collections, c.id = cid ∧ c.userId = userId)
    (hi : ∃ it ∈ db.items, it.id = iid ∧ it.userId = userId) :
    addItemToCollection context ⟨cid, iid⟩ freshId now db =
      (.ok ⟨freshId, cid, iid, now⟩,
        { db with links := db.links ++ [⟨freshId, cid, iid, now⟩] }) := by
  obtain ⟨c0, hok⟩ := getOwnedCollection_ok db cid userId hc
  obtain ⟨it0, hoki⟩ := getOwnedItem_ok db iid userId hi
  have hv : linkInputValid ⟨cid, iid⟩ = true := by
    simp [linkInputValid, hcv, hiv]
  simp [addItemToCollection, hv, requireUser, hctx, hok, hoki]

theorem removeItemFromCollection_shape
    (context : ActionAPIContext) (userId cid iid : String) (db : DB)
    (hctx : context.user = some userId)
    (hcv : 1 ≤ cid.length) (hiv : 1 ≤ iid.length)
    (hc : ∃ c ∈ db.collections, c.id = cid ∧ c.userId = userId)
    (hi : ∃ it ∈ db.items, it.id = iid ∧ it.userId = userId) :
    removeItemFromCollection context ⟨cid, iid⟩ db =
      ((if db.links.countP (linkMatches ⟨cid, iid⟩) == 0 then .error .notFound
        else .ok ()),
        { db with
            links := db.links.filter (fun l => !linkMatches ⟨cid, iid⟩ l) }) := by
  obtain ⟨c0, hok⟩ := getOwnedCollection_ok db cid userId hc
  obtain ⟨it0, hoki⟩ := getOwnedItem_ok db iid userId hi
  have hv : linkInputValid ⟨cid, iid⟩ = true := by
    simp [linkInputValid, hcv, hiv]
  simp [removeItemFromCollection, hv, requireUser, hctx, hok, hoki]
  split <;> simp_all

theorem listCollectionItems_mem
    (context : ActionAPIContext) (userId cid : String) (db : DB)
    (hctx : context.user = some userId) (hcv : 1 ≤ cid.length)
    (hc : ∃ c ∈ db.collections, c.id = cid ∧ c.userId = userId) :
    ∃ items n,
      listCollectionItems context ⟨cid⟩ db = (.ok (items, n), db) ∧
      ∀ it : ClipboardItem,
        it ∈ items ↔
          it ∈ db.items ∧
          ∃ l ∈ db.links, l.collectionId = cid ∧ l.itemId = it.id := by
  obtain ⟨c0, hok⟩ := getOwnedCollection_ok db cid userId hc
  have hv : listCollectionItemsInputValid ⟨cid⟩ = true := by
    simp [listCollectionItemsInputValid, hcv]
  by_cases hlen :
      ((db.links.filter (fun l => l.collectionId == cid)).map
        (fun l => l.itemId)).length = 0
  · refine ⟨[], 0, ?_, ?_⟩
    · simp [listCollectionItems, hv, requireUser, hctx, hok, hlen]
    · intro it
      rw [List.length_eq_zero, List.map_eq_nil, List.filter_eq_nil_iff] at hlen
      simp only [List.not_mem_nil, false_iff, not_and]
      intro hmem
      rintro ⟨l, hl, hcid, hiid⟩
      exact absurd (by simp [hcid]) (hlen l hl)
  · have hex : ∃ l ∈ db.links, (l.collectionId == cid) = true := by
      by_contra hno
      push_neg at hno
      apply hlen
      rw [List.length_eq_zero, List.map_eq_nil_iff, List.filter_eq_nil_iff]
      intro a ha
      simpa using hno a ha
    refine ⟨db.items.filter
        (fun it => ((db.links.filter (fun l => l.collectionId == cid)).map
          (fun l => l.itemId)).contains it.id),
      (db.items.filter
        (fun it => ((db.links.filter (fun l => l.collectionId == cid)).map
          (fun l => l.itemId)).contains it.id)).length, ?_, ?_⟩
    · simp [listCollectionItems, hv, requireUser, hctx, hok]
      intro hall
      obtain ⟨l, hl, hlc⟩ := hex
      exact absurd (by simpa using hlc) (hall l hl)
    · intro it
      rw [List.mem_filter]
      constructor
      · rintro ⟨hmem, hcont⟩
        refine ⟨hmem, ?_⟩
        have : it.id ∈ (db.links.filter (fun l => l.collectionId == cid)).map
            (fun l => l.itemId) := by simpa using hcont
        obtain ⟨l, hl, hlid⟩ := List.mem_map.mp this
        obtain ⟨hlmem, hlcid⟩ := List.mem_filter.mp hl
        exact ⟨l, hlmem, by simpa using hlcid, hlid⟩
      · rintro ⟨hmem, l, hlmem, hlcid, hlid⟩
        refine ⟨hmem, ?_⟩
        have : it.id ∈ (db.links.filter (fun l => l.collectionId == cid)).map
            (fun l => l.itemId) :=
          List.mem_map.mpr ⟨l, List.mem_filter.mpr ⟨hlmem, by simp [hlcid]⟩, hlid⟩
        simpa using this

/-! ## Claim C5: link lifecycle round-trip -/

/-- C5: for a caller owning collection `cid` and item `it` with id
`iid`, a successful `addItemToCollection` makes `listCollectionItems`
return a set containing `it`, and a subsequent successful
`removeItemFromCollection` makes `listCollectionItems` no longer
contain it. -/
theorem link_lifecycle
    (context : ActionAPIContext) (userId cid iid freshId : String) (now : Nat)
    (db : DB) (c : ClipboardCollection) (it : ClipboardItem)
    (hctx : context.user = some userId)
    (hcv : 1 ≤ cid.length) (hiv : 1 ≤ iid.length)
    (hcmem : c ∈ db.collections) (hcid : c.id = cid) (hcu : c.userId = userId)
    (himem : it ∈ db.items) (hiid : it.id = iid) (hiu : it.userId = userId) :
    ∃ db1,
      addItemToCollection context ⟨cid, iid⟩ freshId now db =
        (.ok ⟨freshId, cid, iid, now⟩, db1) ∧
      (∃ items1 n1,
        listCollectionItems context ⟨cid⟩ db1 = (.ok (items1, n1), db1) ∧
        it ∈ items1) ∧
      ∃ db2,
        removeItemFromCollection context ⟨cid, iid⟩ db1 = (.ok (), db2) ∧
        ∃ items2 n2,
          listCollectionItems context ⟨cid⟩ db2 = (.ok (items2, n2), db2) ∧
          it ∉ items2 := by
  have hcex : ∃ c ∈ db.collections, c.id = cid ∧ c.userId = userId :=
    ⟨c, hcmem, hcid, hcu⟩
  have hiex : ∃ x ∈ db.items, x.id = iid ∧ x.userId = userId :=
    ⟨it, himem, hiid, hiu⟩
  have hadd := addItemToCollection_ok context userId cid iid freshId now db
    hctx hcv hiv hcex hiex
  set link : ClipboardCollectionItem := ⟨freshId, cid, iid, now⟩ with hlink
  set db1 : DB := { db with links := db.links ++ [link] } with hdb1
  refine ⟨db1, hadd, ?_, ?_⟩
  · have hcex1 : ∃ c ∈ db1.collections, c.id = cid ∧ c.userId = userId := hcex
    obtain ⟨items1, n1, heq1, hiff1⟩ :=
      listCollectionItems_mem context userId cid db1 hctx hcv hcex1
    refine ⟨items1, n1, heq1, (hiff1 it).mpr ⟨himem, link, ?_, rfl, hiid.symm⟩⟩
    exact List.mem_append_right _ (List.mem_singleton.mpr rfl)
  · have hcex1 : ∃ c ∈ db1.collections, c.id = cid ∧ c.userId = userId := hcex
    have hiex1 : ∃ x ∈ db1.items, x.id = iid ∧ x.userId = userId := hiex
    have hrm := removeItemFromCollection_shape context userId cid iid db1
      hctx hcv hiv hcex1 hiex1
    have hcnt : db1.links.countP (linkMatches ⟨cid, iid⟩) ≠ 0 := by
      have : linkMatches ⟨cid, iid⟩ link = true := by simp [linkMatches]
      have hpos : 0 < db1.links.countP (linkMatches ⟨cid, iid⟩) :=
        List.countP_pos.mpr ⟨link, List.mem_append_right _
          (List.mem_singleton.mpr rfl), this⟩
      omega
    set db2 : DB :=
      { db1 with links := db1.links.filter (fun l => !linkMatches ⟨cid, iid⟩ l) }
      with hdb2
    have hrm2 : removeItemFromCollection context ⟨cid, iid⟩ db1 = (.ok (), db2) := by
      rw [hrm, if_neg (by simpa using hcnt)]
    refine ⟨db2, hrm2, ?_⟩
    have hcex2 : ∃ c ∈ db2.collections, c.id = cid ∧ c.userId = userId := hcex
    obtain ⟨items2, n2, heq2, hiff2⟩ :=
      listCollectionItems_mem context userId cid db2 hctx hcv hcex2
    refine ⟨items2, n2, heq2, ?_⟩
    intro hcontra
    obtain ⟨-, l, hlmem, hlcid, hlid⟩ := (hiff2 it).mp hcontra
    have hlm : linkMatches ⟨cid, iid⟩ l = false := by
      have := (List.mem_filter.mp hlmem).2
      simpa using this
    rw [hiid] at hlid
    simp [linkMatches, hlcid, hlid] at hlm

/-- The one-item one-collection store of the C5 witness scenario. -/
def dbC5 : DB := { items := [itemC2], collections := [collC3], links := [] }

/-- Witness for C5 at a concrete run: add item `i1` to collection `c1`,
list, remove, list again. -/
theorem link_lifecycle_witness :
    ∃ db1,
      addItemToCollection { user := some "u1" } ⟨"c1", "i1"⟩ "l1" 7 dbC5 =
        (.ok ⟨"l1", "c1", "i1", 7⟩, db1) ∧
      (∃ items1 n1,
        listCollectionItems { user := some "u1" } ⟨"c1"⟩ db1 =
          (.ok (items1, n1), db1) ∧
        itemC2 ∈ items1) ∧
      ∃ db2,
        removeItemFromCollection { user := some "u1" } ⟨"c1", "i1"⟩ db1 =
          (.ok (), db2) ∧
        ∃ items2 n2,
          listCollectionItems { user := some "u1" } ⟨"c1"⟩ db2 =
            (.ok (items2, n2), db2) ∧
          itemC2 ∉ items2 :=
  link_lifecycle { user := some "u1" } "u1" "c1" "i1" "l1" 7 dbC5 collC3 itemC2
    rfl (by decide) (by decide) (by decide) rfl rfl (by decide) rfl rfl

/-! ## Claim C6: remove deletes all matching links, NotFound iff none -/

/-- C6: with both ids owned by the caller, `removeItemFromCollection`
deletes every link row matching the `(collectionId, itemId)` pair in a
single call — duplicates included — keeps all other rows, and fails
`notFound` exactly when zero link rows matched. -/
theorem remove_deletes_all_matching
    (context : ActionAPIContext) (userId cid iid : String) (db : DB)
    (hctx : context.user = some userId)
    (hcv : 1 ≤ cid.length) (hiv : 1 ≤ iid.length)
    (hc : ∃ c ∈ db.collections, c.id = cid ∧ c.userId = userId)
    (hi : ∃ it ∈ db.items, it.id = iid ∧ it.userId = userId) :
    (removeItemFromCollection context ⟨cid, iid⟩ db).2.links =
        db.links.filter (fun l => !linkMatches ⟨cid, iid⟩ l) ∧
    ((removeItemFromCollection context ⟨cid, iid⟩ db).1 = .error .notFound ↔
        ∀ l ∈ db.links, ¬(l.collectionId = cid ∧ l.itemId = iid)) ∧
    ((removeItemFromCollection context ⟨cid, iid⟩ db).1 = .ok () ↔
        ∃ l ∈ db.links, l.collectionId = cid ∧ l.itemId = iid) := by
  have hshape := removeItemFromCollection_shape context userId cid iid db
    hctx hcv hiv hc hi
  have hcount : db.links.countP (linkMatches ⟨cid, iid⟩) = 0 ↔
      ∀ l ∈ db.links, ¬(l.collectionId = cid ∧ l.itemId = iid) := by
    rw [List.countP_eq_zero]
    constructor
    · intro h l hl hpair
      exact absurd (by simp [linkMatches, hpair.1, hpair.2]) (h l hl)
    · intro h l hl
      simp only [linkMatches, Bool.and_eq_true, beq_iff_eq, not_and]
      intro h1 h2
      exact h l hl ⟨h1, h2⟩
  by_cases h0 : db.links.countP (linkMatches ⟨cid, iid⟩) = 0
  · have hb : (db.links.countP (linkMatches ⟨cid, iid⟩) == 0) = true := by
      simpa using h0
    rw [hshape]
    refine ⟨rfl, ?_, ?_⟩
    · rw [if_pos hb]
      exact iff_of_true rfl (hcount.mp h0)
    · rw [if_pos hb]
      refine iff_of_false (fun h => Except.noConfusion h) ?_
      rintro ⟨l, hl, h1, h2⟩
      exact hcount.mp h0 l hl ⟨h1, h2⟩
  · have hb : ¬((db.links.countP (linkMatches ⟨cid, iid⟩) == 0) = true) := by
      simpa using h0
    rw [hshape]
    refine ⟨rfl, ?_, ?_⟩
    · rw [if_neg hb]
      refine iff_of_false (fun h => Except.noConfusion h) ?_
      intro hall
      exact h0 (hcount.mpr hall)
    · rw [if_neg hb]
      refine iff_of_true rfl ?_
      have hpos : 0 < db.links.countP (linkMatches ⟨cid, iid⟩) :=
        Nat.pos_of_ne_zero h0
      obtain ⟨l, hl, hlm⟩ := List.countP_pos_iff.mp hpos
      have hlm2 : l.collectionId = cid ∧ l.itemId = iid := by
        simpa [linkMatches] using hlm
      exact ⟨l, hl, hlm2.1, hlm2.2⟩

/-- A link row matching the C6 pair. -/
def linkC6a : ClipboardCollectionItem := ⟨"l1", "c1", "i1", 1⟩

/-- A duplicate link row matching the C6 pair. -/
def linkC6b : ClipboardCollectionItem := ⟨"l2", "c1", "i1", 2⟩

/-- A link row of the same collection but another item. -/
def linkC6c : ClipboardCollectionItem := ⟨"l3", "c1", "iz", 3⟩

/-- Store of the C6 scenario: duplicate links for `(c1, i1)` plus one
unrelated link. -/
def dbC6 : DB :=
  { items := [itemC2], collections := [collC3],
    links := [linkC6a, linkC6b, linkC6c] }

/-- Witness for C6: removing `(c1, i1)` from `dbC6` deletes both
duplicate rows, keeps the unrelated one, and succeeds. -/
theorem remove_deletes_all_matching_witness :
    (removeItemFromCollection { user := some "u1" } ⟨"c1", "i1"⟩ dbC6).2.links =
        dbC6.links.filter (fun l => !linkMatches ⟨"c1", "i1"⟩ l) ∧
    ((removeItemFromCollection { user := some "u1" } ⟨"c1", "i1"⟩ dbC6).1 =
        .ok () ↔
      ∃ l ∈ dbC6.links, l.collectionId = "c1" ∧ l.itemId = "i1") ∧
    (removeItemFromCollection { user := some "u1" } ⟨"c1", "i1"⟩ dbC6).2.links =
      [linkC6c] :=
  ⟨(remove_deletes_all_matching { user := some "u1" } "u1" "c1" "i1" dbC6
      rfl (by decide) (by decide) (by decide) (by decide)).1,
   (remove_deletes_all_matching { user := some "u1" } "u1" "c1" "i1" dbC6
      rfl (by decide) (by decide) (by decide) (by decide)).2.2,
   by rfl⟩

/-! ## Failure-atomicity lemmas: an erroring operation leaves the store
unchanged -/

theorem createClipboardItem_err_state
    (context : ActionAPIContext) (input : CreateItemInput)
    (freshId : String) (now : Nat) (db : DB) (e : ActionError)
    (h : (createClipboardItem context input freshId now db).1 = .error e) :
    (createClipboardItem context input freshId now db).2 = db := by
  by_cases hv : createItemInputValid input = true
  · cases hu : requireUser context with
    | error e2 => simp [createClipboardItem, hv, hu]
    | ok uid => simp [createClipboardItem, hv, hu] at h
  · simp [createClipboardItem, hv]

theorem updateClipboardItem_err_state
    (context : ActionAPIContext) (input : UpdateItemInput) (db : DB)
    (e : ActionError)
    (h : (updateClipboardItem context input db).1 = .error e) :
    (updateClipboardItem context input db).2 = db := by
  by_cases hv : updateItemInputValid input = true
  · cases hu : requireUser context with
    | error e2 => simp [updateClipboardItem, hv, hu]
    | ok uid =>
      cases hg : getOwnedItem db input.id uid with
      | error e2 => simp [updateClipboardItem, hv, hu, hg]
      | ok it0 => simp [updateClipboardItem, hv, hu, hg] at h
  · simp [updateClipboardItem, hv]

theorem listClipboardItems_state
    (context : ActionAPIContext) (input : ListItemsInput) (db : DB) :
    (listClipboardItems context input db).2 = db := by
  cases hu : requireUser context <;> simp [listClipboardItems, hu]

theorem createCollection_err_state
    (context : ActionAPIContext) (input : CreateCollectionInput)
    (freshId : String) (now : Nat) (db : DB) (e : ActionError)
    (h : (createCollection context input freshId now db).1 = .error e) :
    (createCollection context input freshId now db).2 = db := by
  by_cases hv : createCollectionInputValid input = true
  · cases hu : requireUser context with
    | error e2 => simp [createCollection, hv, hu]
    | ok uid => simp [createCollection, hv, hu] at h
  · simp [createCollection, hv]

theorem updateCollection_err_state
    (context : ActionAPIContext) (input : UpdateCollectionInput) (now : Nat)
    (db : DB) (e : ActionError)
    (h : (updateCollection context input now db).1 = .error e) :
    (updateCollection context input now db).2 = db := by
  by_cases hv : updateCollectionInputValid input = true
  · cases hu : requireUser context with
    | error e2 => simp [updateCollection, hv, hu]
    | ok uid =>
      cases hg : getOwnedCollection db input.id uid with
      | error e2 => simp [updateCollection, hv, hu, hg]
      | ok c0 => simp [updateCollection, hv, hu, hg] at h
  · simp [updateCollection, hv]

theorem listCollections_state
    (context : ActionAPIContext) (db : DB) :
    (listCollections context db).2 = db := by
  cases hu : requireUser context <;> simp [listCollections, hu]

theorem addItemToCollection_err_state
    (context : ActionAPIContext) (input : LinkInput)
    (freshId : String) (now : Nat) (db : DB) (e : ActionError)
    (h : (addItemToCollection context input freshId now db).1 = .error e) :
    (addItemToCollection context input freshId now db).2 = db := by
  by_cases hv : linkInputValid input = true
  · cases hu : requireUser context with
    | error e2 => simp [addItemToCollection, hv, hu]
    | ok uid =>
      cases hg : getOwnedCollection db input.collectionId uid with
      | error e2 => simp [addItemToCollection, hv, hu, hg]
      | ok c0 =>
        cases hgi : getOwnedItem db input.itemId uid with
        | error e2 => simp [addItemToCollection, hv, hu, hg, hgi]
        | ok it0 => simp [addItemToCollection, hv, hu, hg, hgi] at h
  · simp [addItemToCollection, hv]

theorem removeItemFromCollection_err_state
    (context : ActionAPIContext) (input : LinkInput) (db : DB)
    (e : ActionError)
    (h : (removeItemFromCollection context input db).1 = .error e) :
    (removeItemFromCollection context input db).2 = db := by
  by_cases hv : linkInputValid input = true
  · cases hu : requireUser context with
    | error e2 => simp [removeItemFromCollection, hv, hu]
    | ok uid =>
      cases hg : getOwnedCollection db input.collectionId uid with
      | error e2 => simp [removeItemFromCollection, hv, hu, hg]
      | ok c0 =>
        cases hgi : getOwnedItem db input.itemId uid with
        | error e2 => simp [removeItemFromCollection, hv, hu, hg, hgi]
        | ok it0 =>
          by_cases h0 : db.links.countP (linkMatches input) = 0
          · have hfil : db.links.filter (fun l => !linkMatches input l) = db.links := by
              rw [List.filter_eq_self]
              intro l hl
              have := List.countP_eq_zero.mp h0 l hl
              simpa using this
            simp [removeItemFromCollection, hv, hu, hg, hgi, h0, hfil]
          · simp [removeItemFromCollection, hv, hu, hg, hgi, h0] at h
  · simp [removeItemFromCollection, hv]

theorem listCollectionItems_state
    (context : ActionAPIContext) (input : ListCollectionItemsInput) (db : DB) :
    (listCollectionItems context input db).2 = db := by
  by_cases hv : listCollectionItemsInputValid input = true
  · cases hu : requireUser context with
    | error e2 => simp [listCollectionItems, hv, hu]
    | ok uid =>
      cases hg : getOwnedCollection db input.collectionId uid with
      | error e2 => simp [listCollectionItems, hv, hu, hg]
      | ok c0 =>
        simp only [listCollectionItems, hv, if_true, hu, hg]
        split <;> rfl
  · simp [listCollectionItems, hv]

/-! ## Claim C9: Unauthorized before storage, atomic failure -/

/-- C9: for every operation, an unauthenticated request (no caller
identity on the context) fails `unauthorized` with the store untouched
whatever its contents; and every failing request — whatever the error —
leaves the store exactly unchanged, so no operation half-succeeds. -/
theorem unauthorized_and_atomic_failure :
    ((∀ (context : ActionAPIContext) (input : CreateItemInput)
        (freshId : String) (now : Nat) (db : DB), context.user = none →
        createItemInputValid input = true →
        createClipboardItem context input freshId now db =
          (.error .unauthorized, db)) ∧
      (∀ (context : ActionAPIContext) (input : UpdateItemInput) (db : DB),
        context.user = none → updateItemInputValid input = true →
        updateClipboardItem context input db = (.error .unauthorized, db)) ∧
      (∀ (context : ActionAPIContext) (input : ListItemsInput) (db : DB),
        context.user = none →
        listClipboardItems context input db = (.error .unauthorized, db)) ∧
      (∀ (context : ActionAPIContext) (input : CreateCollectionInput)
        (freshId : String) (now : Nat) (db : DB), context.user = none →
        createCollectionInputValid input = true →
        createCollection context input freshId now db =
          (.error .unauthorized, db)) ∧
      (∀ (context : ActionAPIContext) (input : UpdateCollectionInput)
        (now : Nat) (db : DB), context.user = none →
        updateCollectionInputValid input = true →
        updateCollection context input now db = (.error .unauthorized, db)) ∧
      (∀ (context : ActionAPIContext) (db : DB), context.user = none →
        listCollections context db = (.error .unauthorized, db)) ∧
      (∀ (context : ActionAPIContext) (input : LinkInput)
        (freshId : String) (now : Nat) (db : DB), context.user = none →
        linkInputValid input = true →
        addItemToCollection context input freshId now db =
          (.error .unauthorized, db)) ∧
      (∀ (context : ActionAPIContext) (input : LinkInput) (db : DB),
        context.user = none → linkInputValid input = true →
        removeItemFromCollection context input db =
          (.error .unauthorized, db)) ∧
      (∀ (context : ActionAPIContext) (input : ListCollectionItemsInput)
        (db : DB), context.user = none →
        listCollectionItemsInputValid input = true →
        listCollectionItems context input db = (.error .unauthorized, db))) ∧
    ((∀ (context : ActionAPIContext) (input : CreateItemInput)
        (freshId : String) (now : Nat) (db : DB) (e : ActionError),
        (createClipboardItem context input freshId now db).1 = .error e →
        (createClipboardItem context input freshId now db).2 = db) ∧
      (∀ (context : ActionAPIContext) (input : UpdateItemInput) (db : DB)
        (e : ActionError),
        (updateClipboardItem context input db).1 = .error e →
        (updateClipboardItem context input db).2 = db) ∧
      (∀ (context : ActionAPIContext) (input : ListItemsInput) (db : DB),
        (listClipboardItems context input db).2 = db) ∧
      (∀ (context : ActionAPIContext) (input : CreateCollectionInput)
        (freshId : String) (now : Nat) (db : DB) (e : ActionError),
        (createCollection context input freshId now db).1 = .error e →
        (createCollection context input freshId now db).2 = db) ∧
      (∀ (context : ActionAPIContext) (input : UpdateCollectionInput)
        (now : Nat) (db : DB) (e : ActionError),
        (updateCollection context input now db).1 = .error e →
        (updateCollection context input now db).2 = db) ∧
      (∀ (context : ActionAPIContext) (db : DB),
        (listCollections context db).2 = db) ∧
      (∀ (context : ActionAPIContext) (input : LinkInput)
        (freshId : String) (now : Nat) (db : DB) (e : ActionError),
        (addItemToCollection context input freshId now db).1 = .error e →
        (addItemToCollection context input freshId now db).2 = db) ∧
      (∀ (context : ActionAPIContext) (input : LinkInput) (db : DB)
        (e : ActionError),
        (removeItemFromCollection context input db).1 = .error e →
        (removeItemFromCollection context input db).2 = db) ∧
      (∀ (context : ActionAPIContext) (input : ListCollectionItemsInput)
        (db : DB),
        (listCollectionItems context input db).2 = db)) := by
  constructor
  · refine ⟨?_, ?_, ?_, ?_, ?_, ?_, ?_, ?_, ?_⟩
    · intro context input freshId now db hnone hv
      simp [createClipboardItem, hv, requireUser, hnone]
    · intro context input db hnone hv
      simp [updateClipboardItem, hv, requireUser, hnone]
    · intro context input db hnone
      simp [listClipboardItems, requireUser, hnone]
    · intro context input freshId now db hnone hv
      simp [createCollection, hv, requireUser, hnone]
    · intro context input now db hnone hv
      simp [updateCollection, hv, requireUser, hnone]
    · intro context db hnone
      simp [listCollections, requireUser, hnone]
    · intro context input freshId now db hnone hv
      simp [addItemToCollection, hv, requireUser, hnone]
    · intro context input db hnone hv
      simp [removeItemFromCollection, hv, requireUser, hnone]
    · intro context input db hnone hv
      simp [listCollectionItems, hv, requireUser, hnone]
  · exact ⟨createClipboardItem_err_state, updateClipboardItem_err_state,
      listClipboardItems_state, createCollection_err_state,
      updateCollection_err_state, listCollections_state,
      addItemToCollection_err_state, removeItemFromCollection_err_state,
      listCollectionItems_state⟩

/-- Create-item input used by the C9 witness. -/
def inC9 : CreateItemInput :=
  { contentType := none, content := "x", normalizedPreview := none,
    sourceApp := none, sourceDevice := none, isPinned := none,
    isArchived := none, lastCopiedAt := none }

/-- Witness for C9: an unauthenticated create fails `unauthorized`
leaving the store as it was, and a remove whose item id does not exist
fails while leaving the store unchanged. -/
theorem unauthorized_and_atomic_failure_witness :
    createClipboardItem { user := none } inC9 "f1" 3 dbC5 =
      (.error .unauthorized, dbC5) ∧
    (removeItemFromCollection { user := some "u1" } ⟨"c1", "iz"⟩ dbC5).2 =
      dbC5 :=
  ⟨unauthorized_and_atomic_failure.1.1 { user := none } inC9 "f1" 3 dbC5
      rfl (by decide),
   unauthorized_and_atomic_failure.2.2.2.2.2.2.2.2.1 { user := some "u1" }
      ⟨"c1", "iz"⟩ dbC5 .notFound rfl⟩

/-! ## Claim C10: duplicate links are collapsed by listCollectionItems -/

theorem length_filter_comp {α β : Type} (f : α → β) (p : β → Bool)
    (l : List α) :
    (l.filter (fun a => p (f a))).length = ((l.map f).filter p).length := by
  induction l with
  | nil => rfl
  | cons a t ih =>
    by_cases hp : p (f a) = true
    · simp [List.filter_cons, hp, ih]
    · simp [List.filter_cons, hp, ih]

theorem length_filter_mem_eq_dedup_length
    (ids ys : List String) (hn : ids.Nodup) (hsub : ∀ y ∈ ys, y ∈ ids) :
    (ids.filter (fun x => ys.contains x)).length = ys.dedup.length := by
  have h1 : (ids.filter (fun x => ys.contains x)).Nodup := hn.filter _
  have h2 : (ids.filter (fun x => ys.contains x)).toFinset = ys.toFinset := by
    ext x
    simp only [List.mem_toFinset, List.mem_filter]
    constructor
    · rintro ⟨hx, hxy⟩
      simpa using hxy
    · intro hxy
      exact ⟨hsub x hxy, by simpa using hxy⟩
  calc (ids.filter (fun x => ys.contains x)).length
      = (ids.filter (fun x => ys.contains x)).toFinset.card :=
        (List.toFinset_card_of_nodup h1).symm
    _ = ys.toFinset.card := by rw [h2]
    _ = ys.dedup.length := List.card_toFinset ys

/-- The store of the C10 scenario: one item linked twice into one
collection. -/
def dbC10 : DB :=
  { items := [itemC2], collections := [collC3], links := [linkC6a, linkC6b] }

/-- C10: when the same item is linked into a collection more than once,
`listCollectionItems` still returns each item at most once, its total
equals the number of distinct linked item ids (assuming item ids are
unique and every link references an existing item), and on the concrete
twice-linked store the total `1` is strictly below the `2` link rows. -/
theorem listCollectionItems_dedup :
    (∀ (context : ActionAPIContext) (userId cid : String) (db : DB),
        context.user = some userId → 1 ≤ cid.length →
        (∃ c ∈ db.collections, c.id = cid ∧ c.userId = userId) →
        (db.items.map ClipboardItem.id).Nodup →
        (∀ l ∈ db.links, l.collectionId = cid →
          ∃ it ∈ db.items, it.id = l.itemId) →
        ∃ items,
          listCollectionItems context ⟨cid⟩ db =
            (.ok (items, items.length), db) ∧
          (items.map ClipboardItem.id).Nodup ∧
          items.length =
            ((db.links.filter (fun l => l.collectionId == cid)).map
              (fun l => l.itemId)).dedup.length) ∧
    (listCollectionItems { user := some "u1" } ⟨"c1"⟩ dbC10 =
        (.ok ([itemC2], 1), dbC10) ∧
      (dbC10.links.filter (fun l => l.collectionId == "c1")).length = 2 ∧
      1 < 2) := by
  constructor
  · intro context userId cid db hctx hcv hc hnodup href
    obtain ⟨c0, hok⟩ := getOwnedCollection_ok db cid userId hc
    have hv : listCollectionItemsInputValid ⟨cid⟩ = true := by
      simp [listCollectionItemsInputValid, hcv]
    by_cases hlen :
        ((db.links.filter (fun l => l.collectionId == cid)).map
          (fun l => l.itemId)).length = 0
    · refine ⟨[], ?_, by simp, ?_⟩
      · simp [listCollectionItems, hv, requireUser, hctx, hok, hlen]
      · have : (db.links.filter (fun l => l.collectionId == cid)).map
            (fun l => l.itemId) = [] := List.length_eq_zero.mp hlen
        simp [this]
    · have hex : ∃ l ∈ db.links, (l.collectionId == cid) = true := by
        by_contra hno
        push_neg at hno
        apply hlen
        rw [List.length_eq_zero, List.map_eq_nil_iff, List.filter_eq_nil_iff]
        intro a ha
        simpa using hno a ha
      refine ⟨db.items.filter
          (fun it => ((db.links.filter (fun l => l.collectionId == cid)).map
            (fun l => l.itemId)).contains it.id), ?_, ?_, ?_⟩
      · simp [listCollectionItems, hv, requireUser, hctx, hok]
        intro hall
        obtain ⟨l, hl, hlc⟩ := hex
        exact absurd (by simpa using hlc) (hall l hl)
      · exact List.Nodup.sublist
          (List.Sublist.map ClipboardItem.id (List.filter_sublist db.items))
          hnodup
      · have hsub : ∀ y ∈ (db.links.filter
            (fun l => l.collectionId == cid)).map (fun l => l.itemId),
            y ∈ db.items.map ClipboardItem.id := by
          intro y hy
          obtain ⟨l, hl, hlid⟩ := List.mem_map.mp hy
          obtain ⟨hlmem, hlcid⟩ := List.mem_filter.mp hl
          obtain ⟨it, hitmem, hitid⟩ := href l hlmem (by simpa using hlcid)
          exact List.mem_map.mpr ⟨it, hitmem, by rw [hitid, hlid]⟩
        calc (db.items.filter
            (fun it => ((db.links.filter (fun l => l.collectionId == cid)).map
              (fun l => l.itemId)).contains it.id)).length
            = ((db.items.map ClipboardItem.id).filter
                (fun x => ((db.links.filter
                  (fun l => l.collectionId == cid)).map
                    (fun l => l.itemId)).contains x)).length :=
              length_filter_comp ClipboardItem.id _ db.items
          _ = ((db.links.filter (fun l => l.collectionId == cid)).map
                (fun l => l.itemId)).dedup.length :=
              length_filter_mem_eq_dedup_length _ _ hnodup hsub
  · exact ⟨rfl, rfl, by decide⟩

/-- Witness for C10 on the twice-linked store: the listing returns the
single item once and its total is the number of distinct linked ids. -/
theorem listCollectionItems_dedup_witness :
    ∃ items,
      listCollectionItems { user := some "u1" } ⟨"c1"⟩ dbC10 =
        (.ok (items, items.length), dbC10) ∧
      (items.map ClipboardItem.id).Nodup ∧
      items.length =
        ((dbC10.links.filter (fun l => l.collectionId == "c1")).map
          (fun l => l.itemId)).dedup.length :=
  listCollectionItems_dedup.1 { user := some "u1" } "u1" "c1" dbC10 rfl
    (by decide) (by decide) (by decide) (by decide)

end ClipboardManager
